import Mathlib

/-!
# Verification of the taskmart-backend OTP credential subsystem

Shallow embedding of the one-time-passcode (OTP) subsystem backing password
reset: the in-memory credential store (`src/services/otpService.ts`), the
code generator and format validator (`src/utils/otp.ts`), the e-mail and
password validators (`src/utils/validation.ts`), and the three password
controller endpoints (`PasswordController` : `forgotPassword`, `verifyOTP`,
`resetPassword`).

Conventions of the embedding:
* Time is an abstract `Nat` measured in minutes; `new Date()` at a call site
  becomes an explicit `now : Nat` parameter, and
  `expiresAt.setMinutes(getMinutes() + 10)` becomes `now + OTP_EXPIRY_MINUTES`.
* The JavaScript `Map<string, OTPData>` becomes an association list
  `List (String × OTPData)`: `Map.get` is first-match lookup, `Map.set`
  replaces the first entry with the key in place (or appends), `Map.delete`
  removes entries with the key, and the `for … of entries()` cleanup loop
  is a filter.
* `Math.random()` draws inside `generateOTP` become an explicit oracle
  `rand : Fin 5 → Fin 36` (each `Math.floor(Math.random() * 36)` lies in
  `[0, 35]` because `Math.random() < 1`).
* External collaborators (user database, password hashing, e-mail delivery)
  become function parameters; thrown `AppError`s become an `Except` result.
  Mutations of the singleton store are made explicit by returning the new
  store alongside the result, also on the error path.
-/

namespace Taskmart

/-- The `OTPData` interface of `src/services/otpService.ts`. -/
structure OTPData where
  code : String
  email : String
  expiresAt : Nat
  verified : Bool
  deriving Repr, DecidableEq

/-- The backing `Map<string, OTPData>` of `OTPService`, as an association
list in insertion order. -/
abbrev Store := List (String × OTPData)

/-- JavaScript `String.prototype.toLowerCase()` on the basic latin range,
as character-list mapping (extensionally equal to `String.toLower`, see
`asciiToLower_eq_toLower`; defined by structural recursion so that concrete
instances reduce in the kernel). -/
def asciiToLower (s : String) : String := ⟨s.data.map Char.toLower⟩

/-- JavaScript `String.prototype.toUpperCase()` on the basic latin range,
as character-list mapping (extensionally equal to `String.toUpper`, see
`asciiToUpper_eq_toUpper`). -/
def asciiToUpper (s : String) : String := ⟨s.data.map Char.toUpper⟩

/-- JavaScript `String.prototype.trim()`: strip leading and trailing
whitespace. -/
def asciiTrim (s : String) : String :=
  ⟨((s.data.dropWhile Char.isWhitespace).reverse.dropWhile
      Char.isWhitespace).reverse⟩

/-- JavaScript `Map.get`: the value of the first entry with the given key. -/
def mapGet (store : Store) (key : String) : Option OTPData :=
  match store with
  | [] => none
  | (k, v) :: rest => if k = key then some v else mapGet rest key

/-- JavaScript `Map.set`: replace the value of the first entry with the given
key in place, or append a new entry at the end. -/
def mapSet (store : Store) (key : String) (val : OTPData) : Store :=
  match store with
  | [] => [(key, val)]
  | (k, v) :: rest =>
      if k = key then (k, val) :: rest else (k, v) :: mapSet rest key val

/-- JavaScript `Map.delete`: remove the entries with the given key. -/
def mapDelete (store : Store) (key : String) : Store :=
  store.filter (fun e => e.1 ≠ key)

/-- `OTPService.OTP_EXPIRY_MINUTES = 10`: OTP expires in 10 minutes. -/
def OTP_EXPIRY_MINUTES : Nat := 10

/-- The alphabet `chars = '0123456789ABCDEFGHIJKLMNOPQRSTUVWXYZ'` of
`generateOTP` in `src/utils/otp.ts`. -/
def otpChars : List Char :=
  "0123456789ABCDEFGHIJKLMNOPQRSTUVWXYZ".toList

/-- `generateOTP` of `src/utils/otp.ts`: five characters, each
`chars.charAt(Math.floor(Math.random() * chars.length))`, with the random
draws supplied by the oracle `rand`. -/
def generateOTP (rand : Fin 5 → Fin 36) : String :=
  ⟨(List.finRange 5).map (fun i => otpChars.getD (rand i).val 'X')⟩

/-- `validateOTPFormat` of `src/utils/otp.ts`: the regex
`/^[A-Z0-9]{5}$/` tested against `otp.toUpperCase()`. -/
def validateOTPFormat (otp : String) : Bool :=
  let u := asciiToUpper otp
  u.length == 5 && u.data.all (fun c => c.isUpper || c.isDigit)

namespace OTPService

/-- `OTPService.cleanupExpiredOTPs`: delete every entry with
`now > otpData.expiresAt`. -/
def cleanupExpiredOTPs (now : Nat) (store : Store) : Store :=
  store.filter (fun e => !(decide (now > e.2.expiresAt)))

/-- `OTPService.generateAndStoreOTP`: generate a code, store it under
`email.toLowerCase()` with `expiresAt = now + 10` minutes and
`verified = false`, then clean up expired OTPs. Returns the code and the
new store. -/
def generateAndStoreOTP (store : Store) (now : Nat) (rand : Fin 5 → Fin 36)
    (email : String) : String × Store :=
  let code := generateOTP rand
  let expiresAt := now + OTP_EXPIRY_MINUTES
  let store1 := mapSet store (asciiToLower email)
    { code := code, email := asciiToLower email, expiresAt := expiresAt,
      verified := false }
  (code, cleanupExpiredOTPs now store1)

/-- `OTPService.verifyOTP`: `false` if no entry under `email.toLowerCase()`;
if `now > expiresAt` the entry is deleted and the result is `false`; if the
codes differ case-insensitively the result is `false`; otherwise the entry
is marked `verified = true` and the result is `true`. Returns the result and
the new store. -/
def verifyOTP (store : Store) (now : Nat) (email code : String) :
    Bool × Store :=
  let emailKey := asciiToLower email
  match mapGet store emailKey with
  | none => (false, store)
  | some otpData =>
      if now > otpData.expiresAt then
        (false, mapDelete store emailKey)
      else if asciiToUpper otpData.code ≠ asciiToUpper code then
        (false, store)
      else
        (true, mapSet store emailKey { otpData with verified := true })

/-- `OTPService.isOTPVerified`: `otpData?.verified === true` for the entry
under `email.toLowerCase()`. -/
def isOTPVerified (store : Store) (email : String) : Bool :=
  match mapGet store (asciiToLower email) with
  | none => false
  | some otpData => otpData.verified

/-- `OTPService.removeOTP`: delete the entry under `email.toLowerCase()`. -/
def removeOTP (store : Store) (email : String) : Store :=
  mapDelete store (asciiToLower email)

end OTPService

/-- `validateEmail` of `src/utils/validation.ts`: the regex
`^[^\s@]+@[^\s@]+\.[^\s@]+$`. Since both character classes exclude `@`,
a match is equivalent to: no whitespace anywhere, exactly one `@`, at least
one character before the `@`, and after the `@` a `.` that is neither the
first nor the last remaining character. -/
def validateEmail (s : String) : Bool :=
  let cs := s.toList
  cs.all (fun c => !c.isWhitespace) &&
  cs.count '@' == 1 &&
  (let i := cs.indexOf '@'
   let rest := cs.drop (i + 1)
   decide (0 < i) && rest.tail.dropLast.contains '.')

/-- The special-character class of `getPasswordValidationErrors`:
the regex character class (codes used for the characters the file scanner
is sensitive to). -/
def passwordSpecialChars : List Char :=
  ['!', '@', '#', '$', '%', '^', '&', '*', '(', ')', '_', '+', '-', '=',
   '[', ']', Char.ofNat 123, Char.ofNat 125, ';', Char.ofNat 39, ':',
   Char.ofNat 34, Char.ofNat 92, '|', ',', '.', '<', '>', '/', '?']

/-- `getPasswordValidationErrors` of `src/utils/validation.ts`: minimum
length 7, at least one capital letter, one digit, one special character;
returns the violated rules in order. -/
def getPasswordValidationErrors (password : String) : List String :=
  (if password.length < 7 then
    ["Password must be at least 7 characters long"] else []) ++
  (if !password.toList.any Char.isUpper then
    ["Password must contain at least one capital letter"] else []) ++
  (if !password.toList.any Char.isDigit then
    ["Password must contain at least one number"] else []) ++
  (if !password.toList.any (fun c => passwordSpecialChars.contains c) then
    ["Password must contain at least one special character"] else [])

/-- The `AppError` hierarchy of `src/errors/AppError.ts`, restricted to the
classes thrown by `PasswordController`. -/
inductive AppError where
  | validation (message : String)
  | unauthorized (message : String)
  | notFound (message : String)
  deriving Repr, DecidableEq

/-- A row of the external user database, as used by `PasswordController`. -/
structure User where
  id : Nat
  email : String
  name : String
  deriving Repr, DecidableEq

/-- Body of a 200 response of `forgotPassword` / `verifyOTP`. -/
structure OkResponse where
  status : Nat
  message : String
  deriving Repr, DecidableEq

/-- Successful outcome of `resetPassword`: the response message plus the
credential update performed on the external user store
(`UserModel.updatePassword(user.id, hashedPassword)`). -/
structure ResetSuccess where
  message : String
  userId : Nat
  hashedPassword : String
  deriving Repr, DecidableEq

namespace PasswordController

/-- `PasswordController.forgotPassword`: validate the email, look the user
up via the external collaborator `findByEmail`, and issue an OTP only when
an account exists; both branches answer 200 with the same generic message.
The (fire-and-forget) `emailService.sendOTPEmail` call does not influence
the response. Returns the result and the new store. -/
def forgotPassword (findByEmail : String → Option User) (store : Store)
    (now : Nat) (rand : Fin 5 → Fin 36) (email : Option String) :
    (Except AppError OkResponse) × Store :=
  match email with
  | none => (.error (.validation "Email is required"), store)
  | some email =>
    if asciiTrim email = "" then
      (.error (.validation "Email is required"), store)
    else
      let trimmedEmail := asciiToLower (asciiTrim email)
      if !validateEmail trimmedEmail then
        (.error (.validation "Invalid email format"), store)
      else
        match findByEmail trimmedEmail with
        | none =>
            (.ok ⟨200,
              "If an account with this email exists, an OTP code has been sent."⟩,
             store)
        | some _user =>
            let res := OTPService.generateAndStoreOTP store now rand trimmedEmail
            (.ok ⟨200,
              "If an account with this email exists, an OTP code has been sent."⟩,
             res.2)

/-- `PasswordController.verifyOTP`: validate presence of both fields and the
OTP format, then delegate to `OTPService.verifyOTP`; any store-level failure
becomes one generic `UnauthorizedError`. Returns the result and the new
store. -/
def verifyOTP (store : Store) (now : Nat) (email otp : Option String) :
    (Except AppError OkResponse) × Store :=
  match email with
  | none => (.error (.validation "Email is required"), store)
  | some email =>
  if asciiTrim email = "" then
    (.error (.validation "Email is required"), store)
  else match otp with
  | none => (.error (.validation "OTP code is required"), store)
  | some otp =>
  if asciiTrim otp = "" then
    (.error (.validation "OTP code is required"), store)
  else
    let trimmedEmail := asciiToLower (asciiTrim email)
    let trimmedOTP := asciiToUpper (asciiTrim otp)
    if !validateOTPFormat trimmedOTP then
      (.error (.validation
        "Invalid OTP format. OTP must be 5 alphanumeric characters."), store)
    else
      let res := OTPService.verifyOTP store now trimmedEmail trimmedOTP
      if !res.1 then
        (.error (.unauthorized "Invalid or expired OTP code"), res.2)
      else
        (.ok ⟨200, "OTP verified successfully"⟩, res.2)

/-- `PasswordController.resetPassword`: the Consumption Protocol. Checks, in
the order of the source: presence of the four fields, OTP format,
`isOTPVerified` with an inline `verifyOTP` fallback, password confirmation,
password strength, user existence; then hashes the password, updates the
user (recorded in `ResetSuccess`), and removes the OTP. Returns the result
and the new store (the fallback `verifyOTP` can mutate the store even when
a later check fails). -/
def resetPassword (findByEmail : String → Option User)
    (hashPassword : String → String) (store : Store) (now : Nat)
    (email otp newPassword confirmPassword : Option String) :
    (Except AppError ResetSuccess) × Store :=
  match email with
  | none => (.error (.validation "Email is required"), store)
  | some email =>
  if asciiTrim email = "" then
    (.error (.validation "Email is required"), store)
  else match otp with
  | none => (.error (.validation "OTP code is required"), store)
  | some otp =>
  if asciiTrim otp = "" then
    (.error (.validation "OTP code is required"), store)
  else match newPassword with
  | none => (.error (.validation "New password is required"), store)
  | some newPassword =>
  if newPassword = "" then
    (.error (.validation "New password is required"), store)
  else match confirmPassword with
  | none => (.error (.validation "Confirm password is required"), store)
  | some confirmPassword =>
  if confirmPassword = "" then
    (.error (.validation "Confirm password is required"), store)
  else
    let trimmedEmail := asciiToLower (asciiTrim email)
    let trimmedOTP := asciiToUpper (asciiTrim otp)
    if !validateOTPFormat trimmedOTP then
      (.error (.validation
        "Invalid OTP format. OTP must be 5 alphanumeric characters."), store)
    else
      let auth : Bool × Store :=
        if OTPService.isOTPVerified store trimmedEmail then (true, store)
        else OTPService.verifyOTP store now trimmedEmail trimmedOTP
      if !auth.1 then
        (.error (.unauthorized
          "Invalid or expired OTP code. Please request a new OTP."), auth.2)
      else if newPassword ≠ confirmPassword then
        (.error (.validation "Passwords do not match"), auth.2)
      else
        let passwordErrors := getPasswordValidationErrors newPassword
        if passwordErrors ≠ [] then
          (.error (.validation (String.intercalate ", " passwordErrors)),
           auth.2)
        else match findByEmail trimmedEmail with
        | none => (.error (.notFound "User not found"), auth.2)
        | some user =>
            let hashedPassword := hashPassword newPassword
            let store2 := OTPService.removeOTP auth.2 trimmedEmail
            (.ok ⟨"Password reset successfully. You can now login with your new password.",
              user.id, hashedPassword⟩, store2)

end PasswordController

/-- The distinct failure modes of the Consumption Protocol (§4.5), in the
order the spec lists the preconditions, plus success. -/
inductive ResetOutcomeClass where
  | missingField
  | badFormat
  | unauthorized
  | passwordMismatch
  | weakPassword
  | userNotFound
  | success
  deriving Repr, DecidableEq

/-- Classify a `resetPassword` outcome into its §4.5 failure mode, by the
controller's error class and, within `ValidationError`, by its message. -/
def classifyReset (r : Except AppError ResetSuccess) : ResetOutcomeClass :=
  match r with
  | .ok _ => .success
  | .error (.unauthorized _) => .unauthorized
  | .error (.notFound _) => .userNotFound
  | .error (.validation m) =>
      if m = "Email is required" ∨ m = "OTP code is required" ∨
          m = "New password is required" ∨ m = "Confirm password is required"
        then .missingField
      else if m = "Invalid OTP format. OTP must be 5 alphanumeric characters."
        then .badFormat
      else if m = "Passwords do not match" then .passwordMismatch
      else .weakPassword

/-- Modelled from the spec (§4.4/§4.5 words): the first violated
precondition of the Consumption Protocol, in the fixed order (1) all four
fields present and non-empty (the identity non-blank — the spec defines the
identity as trimmed — but the code is taken as submitted), (2) code format
after upper-casing only (§4.4 normalizes the code by upper-casing, with no
trim), (3) verified — or inline fallback verify, (4) confirmation equality,
(5) strength policy, (6) account existence. -/
def resetPreconditionSpec (findByEmail : String → Option User)
    (store : Store) (now : Nat)
    (email otp newPassword confirmPassword : Option String) :
    ResetOutcomeClass :=
  match email, otp, newPassword, confirmPassword with
  | some e, some o, some np, some cp =>
    if asciiTrim e = "" ∨ o = "" ∨ np = "" ∨ cp = "" then
      .missingField
    else if !validateOTPFormat (asciiToUpper o) then .badFormat
    else if !(OTPService.isOTPVerified store (asciiToLower (asciiTrim e)) ||
        (OTPService.verifyOTP store now (asciiToLower (asciiTrim e))
          (asciiToUpper o)).1) then .unauthorized
    else if np ≠ cp then .passwordMismatch
    else if getPasswordValidationErrors np ≠ [] then .weakPassword
    else if (findByEmail (asciiToLower (asciiTrim e))).isNone then
      .userNotFound
    else .success
  | _, _, _, _ => .missingField

/-- The first violated precondition of the Consumption Protocol in the same
fixed §4.5 order, but with the controller's normalization of the submitted
code: the code is trimmed before the format check, and a whitespace-only
code counts as a missing field. This is the spec side of the amended C8. -/
def resetPreconditionOrder (findByEmail : String → Option User)
    (store : Store) (now : Nat)
    (email otp newPassword confirmPassword : Option String) :
    ResetOutcomeClass :=
  match email, otp, newPassword, confirmPassword with
  | some e, some o, some np, some cp =>
    if asciiTrim e = "" ∨ asciiTrim o = "" ∨ np = "" ∨ cp = "" then
      .missingField
    else if !validateOTPFormat (asciiToUpper (asciiTrim o)) then .badFormat
    else if !(OTPService.isOTPVerified store (asciiToLower (asciiTrim e)) ||
        (OTPService.verifyOTP store now (asciiToLower (asciiTrim e))
          (asciiToUpper (asciiTrim o))).1) then .unauthorized
    else if np ≠ cp then .passwordMismatch
    else if getPasswordValidationErrors np ≠ [] then .weakPassword
    else if (findByEmail (asciiToLower (asciiTrim e))).isNone then
      .userNotFound
    else .success
  | _, _, _, _ => .missingField

/-! ## Helper lemmas about the map model and ASCII case-folding -/

theorem charToLowerIdem (c : Char) : c.toLower.toLower = c.toLower := by
  simp only [Char.toLower]
  split
  · next h =>
    have hv : (c.toNat + 32).isValidChar := Or.inl (by omega)
    have ht : (Char.ofNat (c.toNat + 32)).toNat = c.toNat + 32 := by
      rw [Char.ofNat, dif_pos hv]
      rfl
    rw [if_neg]
    rw [ht]
    omega
  · rfl

theorem asciiToLower_idem (s : String) :
    asciiToLower (asciiToLower s) = asciiToLower s := by
  simp only [asciiToLower, List.map_map]
  exact congrArg String.mk (List.map_congr_left (fun a _ => charToLowerIdem a))

theorem asciiToLower_eq_toLower (s : String) : asciiToLower s = s.toLower := by
  simp [asciiToLower, String.toLower, String.map_eq]

theorem asciiToUpper_eq_toUpper (s : String) : asciiToUpper s = s.toUpper := by
  simp [asciiToUpper, String.toUpper, String.map_eq]

theorem mapGet_mapSet_self (store : Store) (k : String) (v : OTPData) :
    mapGet (mapSet store k v) k = some v := by
  induction store with
  | nil => simp [mapSet, mapGet]
  | cons e rest ih =>
    obtain ⟨k1, v1⟩ := e
    by_cases h : k1 = k
    · simp [mapSet, mapGet, h]
    · simp [mapSet, mapGet, h, ih]

theorem mapGet_mapSet_ne (store : Store) (k k' : String) (v : OTPData)
    (h : k' ≠ k) : mapGet (mapSet store k v) k' = mapGet store k' := by
  have hkk : k ≠ k' := Ne.symm h
  induction store with
  | nil => simp [mapSet, mapGet, hkk]
  | cons e rest ih =>
    obtain ⟨k1, v1⟩ := e
    by_cases h1 : k1 = k
    · subst h1
      simp [mapSet, mapGet, hkk]
    · simp [mapSet, h1, mapGet, ih]

theorem mapGet_mapDelete_self (store : Store) (k : String) :
    mapGet (mapDelete store k) k = none := by
  induction store with
  | nil => rfl
  | cons e rest ih =>
    obtain ⟨k1, v1⟩ := e
    simp only [mapDelete, List.filter_cons, decide_not] at ih ⊢
    by_cases h : k1 = k
    · simp [h, ih]
    · simp [h, mapGet, ih]

theorem mapGet_mapDelete_ne (store : Store) (k k' : String) (h : k' ≠ k) :
    mapGet (mapDelete store k) k' = mapGet store k' := by
  have hkk : k ≠ k' := Ne.symm h
  induction store with
  | nil => rfl
  | cons e rest ih =>
    obtain ⟨k1, v1⟩ := e
    simp only [mapDelete, List.filter_cons, decide_not] at ih ⊢
    by_cases h1 : k1 = k
    · subst h1
      simp [mapGet, hkk, ih]
    · by_cases h2 : k1 = k'
      · simp [h1, mapGet, h2, h]
      · simp [h1, mapGet, h2, ih]

theorem mapGet_filter (p : String × OTPData → Bool) (store : Store)
    (k : String) (d : OTPData) (hd : mapGet store k = some d)
    (hp : p (k, d) = true) : mapGet (store.filter p) k = some d := by
  induction store with
  | nil => simp [mapGet] at hd
  | cons e rest ih =>
    obtain ⟨k1, v1⟩ := e
    by_cases h : k1 = k
    · subst h
      simp [mapGet] at hd
      subst hd
      simp [List.filter_cons, hp, mapGet]
    · simp only [mapGet, if_neg h] at hd
      by_cases hc : p (k1, v1) = true
      · simp [List.filter_cons, hc, mapGet, h, ih hd]
      · rw [List.filter_cons, if_neg hc]
        exact ih hd

theorem mem_mapSet (store : Store) (k : String) (v : OTPData)
    (e : String × OTPData) (h : e ∈ mapSet store k v) :
    e ∈ store ∨ e = (k, v) := by
  induction store with
  | nil => simpa [mapSet] using h
  | cons e1 rest ih =>
    obtain ⟨k1, v1⟩ := e1
    by_cases h1 : k1 = k
    · subst h1
      have h2 : e = (k1, v) ∨ e ∈ rest := by simpa [mapSet] using h
      rcases h2 with h2 | h2
      · exact Or.inr h2
      · exact Or.inl (List.mem_cons_of_mem _ h2)
    · have h2 : e = (k1, v1) ∨ e ∈ mapSet rest k v := by
        simpa [mapSet, h1] using h
      rcases h2 with h2 | h2
      · exact Or.inl (by simp [h2])
      · rcases ih h2 with h3 | h3
        · exact Or.inl (List.mem_cons_of_mem _ h3)
        · exact Or.inr h3

/-! ## Claim theorems -/

/-- Claim C4: `OTPService.verifyOTP` returns `false` if no record exists for
the identity; if the record's expiry has passed (`now > expiresAt`) it
returns `false` and deletes the record as part of the call; if the submitted
code does not case-insensitively equal the stored code it returns `false`;
otherwise it sets `verified = true` on the record and returns `true` — in
particular the correct code succeeds in any character-case combination
(any `code` with the same upper-casing as the stored one). -/
theorem verifyOTP_case_analysis (store : Store) (now : Nat)
    (email code : String) :
    (mapGet store (asciiToLower email) = none →
      OTPService.verifyOTP store now email code = (false, store)) ∧
    (∀ d, mapGet store (asciiToLower email) = some d →
      (now > d.expiresAt →
        OTPService.verifyOTP store now email code =
          (false, mapDelete store (asciiToLower email)) ∧
        mapGet (OTPService.verifyOTP store now email code).2
          (asciiToLower email) = none) ∧
      (now ≤ d.expiresAt → asciiToUpper d.code ≠ asciiToUpper code →
        OTPService.verifyOTP store now email code = (false, store)) ∧
      (now ≤ d.expiresAt → asciiToUpper d.code = asciiToUpper code →
        OTPService.verifyOTP store now email code =
          (true, mapSet store (asciiToLower email)
            { d with verified := true }) ∧
        mapGet (OTPService.verifyOTP store now email code).2
          (asciiToLower email) =
          some { d with verified := true })) := by
  refine ⟨fun h => ?_,
    fun d hd => ⟨fun hexp => ?_, fun hexp hne => ?_, fun hexp heq => ?_⟩⟩
  · simp [OTPService.verifyOTP, h]
  · constructor
    · simp [OTPService.verifyOTP, hd, hexp]
    · simp [OTPService.verifyOTP, hd, hexp, mapGet_mapDelete_self]
  · have h1 : ¬ now > d.expiresAt := by omega
    simp [OTPService.verifyOTP, hd, h1, hne]
  · have h1 : ¬ now > d.expiresAt := by omega
    constructor
    · simp [OTPService.verifyOTP, hd, h1, heq]
    · simp [OTPService.verifyOTP, hd, h1, heq, mapGet_mapSet_self]

/-- Witness for C4: on a concrete store, the correct code submitted in a
different character case verifies and marks the record verified. -/
theorem verifyOTP_case_analysis_witness :
    OTPService.verifyOTP [("a@b.com", ⟨"A1B2C", "a@b.com", 10, false⟩)] 3
        "A@B.com" "a1b2c" =
      (true, [("a@b.com", ⟨"A1B2C", "a@b.com", 10, true⟩)]) := by
  have h := ((verifyOTP_case_analysis
      [("a@b.com", ⟨"A1B2C", "a@b.com", 10, false⟩)] 3 "A@B.com" "a1b2c").2
      ⟨"A1B2C", "a@b.com", 10, false⟩ (by decide)).2.2 (by decide) (by decide)
  rw [h.1]
  decide

/-- Helper: after `generateAndStoreOTP`, the identity's key holds the fresh
record (it survives the cleanup sweep because `expiresAt = now + 10 > now`). -/
theorem mapGet_generateAndStoreOTP_self (store : Store) (now : Nat)
    (rand : Fin 5 → Fin 36) (email : String) :
    mapGet (OTPService.generateAndStoreOTP store now rand email).2
        (asciiToLower email) =
      some ⟨generateOTP rand, asciiToLower email, now + OTP_EXPIRY_MINUTES,
        false⟩ := by
  simp only [OTPService.generateAndStoreOTP, OTPService.cleanupExpiredOTPs]
  apply mapGet_filter
  · exact mapGet_mapSet_self store (asciiToLower email) _
  · simp

/-- Counterexample to claim C1: a record whose `expiresAt` (time 5) has
passed (current time 10) but which is still physically present reports
`isVerified = true` — `isOTPVerified` never consults expiry — and the
Consumption Protocol's authorization check passes: the whole reset succeeds
at time 10 on the record that expired at time 5. -/
theorem isOTPVerified_expired_record_cex :
    (5 : Nat) ≤ 10 ∧
    OTPService.isOTPVerified
      [("a@b.com", ⟨"A1B2C", "a@b.com", 5, true⟩)] "a@b.com" = true ∧
    (PasswordController.resetPassword
        (fun e => if e = "a@b.com" then some ⟨7, "a@b.com", "Ann"⟩ else none)
        (fun p => p) [("a@b.com", ⟨"A1B2C", "a@b.com", 5, true⟩)] 10
        (some "a@b.com") (some "A1B2C") (some "NewPass1!")
        (some "NewPass1!")).1 =
      .ok ⟨"Password reset successfully. You can now login with your new password.",
        7, "NewPass1!"⟩ :=
  ⟨by omega, by decide, by rfl⟩

/-- Claim C1 (amended): `isOTPVerified` ignores expiry — whenever a record
for the identity is physically present, its `verified` flag is returned
as-is; in particular a record verified before expiry and still present
reports verified even when the current time is at or past `expiresAt`, and
so still satisfies the Consumption Protocol's authorization check. -/
theorem isOTPVerified_ignores_expiry (store : Store) (email : String)
    (d : OTPData) (now : Nat)
    (hd : mapGet store (asciiToLower email) = some d)
    (hverified : d.verified = true) (hexpired : d.expiresAt ≤ now) :
    OTPService.isOTPVerified store email = true := by
  simp [OTPService.isOTPVerified, hd, hverified]

/-- Witness for the amended C1 at a concrete expired-but-present record. -/
theorem isOTPVerified_ignores_expiry_witness :
    OTPService.isOTPVerified
      [("a@b.com", ⟨"X9Y8Z", "a@b.com", 5, true⟩)] "A@B.com" = true :=
  isOTPVerified_ignores_expiry _ "A@B.com" ⟨"X9Y8Z", "a@b.com", 5, true⟩ 10
    (by decide) rfl (by decide)

/-- Counterexample to claim C7: the store does not whitespace-trim its
identity key — issuing for `" a@b.com"` (leading space) stores the record
under `" a@b.com"`, and a lookup for `"a@b.com"`, differing only in leading
whitespace, finds no record. -/
theorem store_no_trim_cex :
    mapGet (OTPService.generateAndStoreOTP [] 0 (fun _ => 0) " a@b.com").2
      "a@b.com" = none ∧
    mapGet (OTPService.generateAndStoreOTP [] 0 (fun _ => 0) " a@b.com").2
      " a@b.com" = some ⟨"00000", " a@b.com", 10, false⟩ := by
  decide

/-- Claim C7 (amended): every Credential Store operation normalizes its
identity argument by lower-casing only — whitespace-trimming happens in the
protocol layer before the store is called, not at the store boundary — so
two identities with the same lower-casing address the same record in all
four operations. -/
theorem store_ops_case_fold_only (store : Store) (now : Nat)
    (rand : Fin 5 → Fin 36) (e1 e2 code : String)
    (h : asciiToLower e1 = asciiToLower e2) :
    OTPService.generateAndStoreOTP store now rand e1 =
      OTPService.generateAndStoreOTP store now rand e2 ∧
    OTPService.verifyOTP store now e1 code =
      OTPService.verifyOTP store now e2 code ∧
    OTPService.isOTPVerified store e1 = OTPService.isOTPVerified store e2 ∧
    OTPService.removeOTP store e1 = OTPService.removeOTP store e2 := by
  refine ⟨?_, ?_, ?_, ?_⟩ <;>
    simp [OTPService.generateAndStoreOTP, OTPService.verifyOTP,
      OTPService.isOTPVerified, OTPService.removeOTP, h]

/-- Witness for the amended C7: two case-variants of the same address see
the same verified flag. -/
theorem store_ops_case_fold_only_witness :
    OTPService.isOTPVerified [("a@b.com", ⟨"A1B2C", "a@b.com", 10, true⟩)]
        "A@B.com" =
      OTPService.isOTPVerified [("a@b.com", ⟨"A1B2C", "a@b.com", 10, true⟩)]
        "a@b.COM" :=
  (store_ops_case_fold_only [("a@b.com", ⟨"A1B2C", "a@b.com", 10, true⟩)] 0
    (fun _ => 0) "A@B.com" "a@b.COM" "" (by decide)).2.2.1

/-- Counterexample to claim C5's invalidation sentence: when the second
issue happens to draw the same code (here the random oracle repeats), the
first issued code still verifies after the second issue. -/
theorem issue_twice_same_code_cex :
    (OTPService.verifyOTP
        (OTPService.generateAndStoreOTP
          (OTPService.generateAndStoreOTP [] 0 (fun _ => 0) "a@b.com").2
          1 (fun _ => 0) "a@b.com").2
        1 "a@b.com"
        (OTPService.generateAndStoreOTP [] 0 (fun _ => 0) "a@b.com").1).1
      = true := by
  decide

/-- Claim C5 (amended): `generateAndStoreOTP` stores a fresh record — a
5-character code over the alphabet `[0-9A-Z]`, `verified = false`,
`expiresAt` = issuance time + 10 minutes — unconditionally overwriting any
prior record for the identity; and after a second issue the first code
fails `verify`, provided the second draw produced a different code
(case-insensitively) — without that proviso the claim is false, see the
counterexample. -/
theorem generateAndStoreOTP_fresh (store : Store) (now : Nat)
    (rand : Fin 5 → Fin 36) (email : String) :
    (OTPService.generateAndStoreOTP store now rand email).1.length = 5 ∧
    (∀ c ∈ (OTPService.generateAndStoreOTP store now rand email).1.data,
      c ∈ otpChars) ∧
    mapGet (OTPService.generateAndStoreOTP store now rand email).2
        (asciiToLower email) =
      some ⟨(OTPService.generateAndStoreOTP store now rand email).1,
        asciiToLower email, now + 10, false⟩ ∧
    (∀ rand2 now2,
      asciiToUpper (generateOTP rand2) ≠
        asciiToUpper (OTPService.generateAndStoreOTP store now rand email).1 →
      (OTPService.verifyOTP
          (OTPService.generateAndStoreOTP
            (OTPService.generateAndStoreOTP store now rand email).2
            now2 rand2 email).2
          now2 email
          (OTPService.generateAndStoreOTP store now rand email).1).1 =
        false) := by
  refine ⟨?_, ?_, ?_, ?_⟩
  · simp [OTPService.generateAndStoreOTP, generateOTP, String.length]
  · intro c hc
    simp only [OTPService.generateAndStoreOTP, generateOTP,
      List.mem_map] at hc
    obtain ⟨i, _, hi⟩ := hc
    have hlt : (rand i).val < otpChars.length := by
      have h36 := (rand i).isLt
      have hlen : otpChars.length = 36 := by decide
      omega
    rw [List.getD_eq_getElem otpChars 'X' hlt] at hi
    rw [← hi]
    exact List.getElem_mem hlt
  · simpa [OTP_EXPIRY_MINUTES] using
      mapGet_generateAndStoreOTP_self store now rand email
  · intro rand2 now2 hne
    have hrec := mapGet_generateAndStoreOTP_self
      (OTPService.generateAndStoreOTP store now rand email).2 now2 rand2 email
    simp only [OTPService.verifyOTP, hrec]
    have hexp : ¬ now2 > now2 + OTP_EXPIRY_MINUTES := by omega
    simp [hexp, hne]

/-- Witness for the amended C5: issuing twice with different draws, the
first code no longer verifies. -/
theorem generateAndStoreOTP_fresh_witness :
    (OTPService.verifyOTP
        (OTPService.generateAndStoreOTP
          (OTPService.generateAndStoreOTP [] 0 (fun _ => 0) "a@b.com").2
          1 (fun _ => 1) "a@b.com").2
        1 "a@b.com"
        (OTPService.generateAndStoreOTP [] 0 (fun _ => 0) "a@b.com").1).1 =
      false :=
  (generateAndStoreOTP_fresh [] 0 (fun _ => 0) "a@b.com").2.2.2
    (fun _ => 1) 1 (by decide)

/-- Claim C10: every issue call sweeps the whole store — immediately after
`generateAndStoreOTP` returns no entry of the store has its `expiresAt` in
the past, and every unexpired record of another identity is left
unchanged. -/
theorem generateAndStoreOTP_sweeps_expired (store : Store) (now : Nat)
    (rand : Fin 5 → Fin 36) (email : String) :
    (∀ e ∈ (OTPService.generateAndStoreOTP store now rand email).2,
      ¬ now > e.2.expiresAt) ∧
    (∀ k d, k ≠ asciiToLower email → mapGet store k = some d →
      now ≤ d.expiresAt →
      mapGet (OTPService.generateAndStoreOTP store now rand email).2 k =
        some d) := by
  constructor
  · intro e he
    simp only [OTPService.generateAndStoreOTP,
      OTPService.cleanupExpiredOTPs] at he
    have := List.mem_filter.mp he
    simpa using this.2
  · intro k d hk hd hkeep
    simp only [OTPService.generateAndStoreOTP, OTPService.cleanupExpiredOTPs]
    apply mapGet_filter
    · rw [mapGet_mapSet_ne _ _ _ _ hk]
      exact hd
    · simp
      omega

/-- Witness for C10: an unexpired record of another identity survives an
issue call untouched. -/
theorem generateAndStoreOTP_sweeps_expired_witness :
    mapGet (OTPService.generateAndStoreOTP
        [("x@y.z", ⟨"AAAAA", "x@y.z", 7, false⟩)] 3 (fun _ => 0)
        "A@B.cd").2 "x@y.z" = some ⟨"AAAAA", "x@y.z", 7, false⟩ :=
  (generateAndStoreOTP_sweeps_expired
    [("x@y.z", ⟨"AAAAA", "x@y.z", 7, false⟩)] 3 (fun _ => 0) "A@B.cd").2
    "x@y.z" ⟨"AAAAA", "x@y.z", 7, false⟩ (by decide) (by decide) (by decide)

/-- Claim C2: for every identity input that passes `forgotPassword`'s input
validation, the response (status and message) is the same fixed generic
acknowledgment whether or not an account exists; and when no account exists
the store is untouched, so a subsequent store-level verify for that identity
(any spelling with the same normalized key) fails as no-record. -/
theorem forgotPassword_uniform_response (f : String → Option User)
    (store : Store) (now : Nat) (rand : Fin 5 → Fin 36) (email : String)
    (hne : asciiTrim email ≠ "")
    (hv : validateEmail (asciiToLower (asciiTrim email)) = true) :
    (∃ st, PasswordController.forgotPassword f store now rand (some email) =
      (.ok ⟨200,
        "If an account with this email exists, an OTP code has been sent."⟩,
       st)) ∧
    (f (asciiToLower (asciiTrim email)) = none →
      PasswordController.forgotPassword f store now rand (some email) =
        (.ok ⟨200,
          "If an account with this email exists, an OTP code has been sent."⟩,
         store) ∧
      (∀ now2 code e2, asciiToLower e2 = asciiToLower (asciiTrim email) →
        mapGet store (asciiToLower (asciiTrim email)) = none →
        (OTPService.verifyOTP store now2 e2 code).1 = false)) := by
  constructor
  · cases hf : f (asciiToLower (asciiTrim email)) with
    | none =>
        exact ⟨store,
          by simp [PasswordController.forgotPassword, hne, hv, hf]⟩
    | some u =>
        exact ⟨(OTPService.generateAndStoreOTP store now rand
            (asciiToLower (asciiTrim email))).2,
          by simp [PasswordController.forgotPassword, hne, hv, hf]⟩
  · intro hf
    refine ⟨by simp [PasswordController.forgotPassword, hne, hv, hf], ?_⟩
    intro now2 code e2 he2 hnone
    rw [← he2] at hnone
    simp [OTPService.verifyOTP, hnone]

/-- Witness for C2: a request for an address with no account answers the
generic acknowledgment and leaves the (empty) store empty. -/
theorem forgotPassword_uniform_response_witness :
    PasswordController.forgotPassword (fun _ => none) [] 0 (fun _ => 0)
      (some " A@B.com") =
      (.ok ⟨200,
        "If an account with this email exists, an OTP code has been sent."⟩,
       []) :=
  ((forgotPassword_uniform_response (fun _ => none) [] 0 (fun _ => 0)
    " A@B.com" (by decide) (by decide)).2 rfl).1

/-- Counterexample to claim C9 as frozen: the submitted code `" a1b2c "`
fails the format after upper-casing alone (length 7), so per the claim it
must be rejected with a validation error before the store is consulted —
but the endpoint trims it first, passes the format check, consults the
store, marks the record verified, and returns 200. -/
theorem verifyOTP_controller_trim_cex :
    validateOTPFormat (asciiToUpper " a1b2c ") = false ∧
    PasswordController.verifyOTP
        [("a@b.com", ⟨"A1B2C", "a@b.com", 10, false⟩)] 3
        (some "a@b.com") (some " a1b2c ") =
      (.ok ⟨200, "OTP verified successfully"⟩,
       [("a@b.com", ⟨"A1B2C", "a@b.com", 10, true⟩)]) :=
  ⟨by decide, by rfl⟩

/-- Claim C9 (amended): the Verification Protocol trims the submitted code
before validating it — so it rejects a missing or blank identity or code,
and any code whose trimmed upper-casing does not match the 5-character
`[0-9A-Z]` format, with a `ValidationError` and an untouched store, while a
code matching the format only after the trim is accepted and reaches the
store (see the counterexample to the unamended claim); and every
store-level verify failure — no record, expired, or wrong code alike —
surfaces as the one generic
`UnauthorizedError "Invalid or expired OTP code"`. -/
theorem verifyOTP_controller_errors (store : Store) (now : Nat) :
    (∀ otp, PasswordController.verifyOTP store now none otp =
      (.error (.validation "Email is required"), store)) ∧
    (∀ email otp, asciiTrim email = "" →
      PasswordController.verifyOTP store now (some email) otp =
        (.error (.validation "Email is required"), store)) ∧
    (∀ email, asciiTrim email ≠ "" →
      PasswordController.verifyOTP store now (some email) none =
        (.error (.validation "OTP code is required"), store)) ∧
    (∀ email otp, asciiTrim email ≠ "" → asciiTrim otp = "" →
      PasswordController.verifyOTP store now (some email) (some otp) =
        (.error (.validation "OTP code is required"), store)) ∧
    (∀ email otp, asciiTrim email ≠ "" → asciiTrim otp ≠ "" →
      validateOTPFormat (asciiToUpper (asciiTrim otp)) = false →
      PasswordController.verifyOTP store now (some email) (some otp) =
        (.error (.validation
          "Invalid OTP format. OTP must be 5 alphanumeric characters."),
         store)) ∧
    (∀ email otp, asciiTrim email ≠ "" → asciiTrim otp ≠ "" →
      validateOTPFormat (asciiToUpper (asciiTrim otp)) = true →
      (OTPService.verifyOTP store now (asciiToLower (asciiTrim email))
          (asciiToUpper (asciiTrim otp))).1 = false →
      (PasswordController.verifyOTP store now (some email) (some otp)).1 =
        .error (.unauthorized "Invalid or expired OTP code")) := by
  refine ⟨fun otp => rfl, ?_, ?_, ?_, ?_, ?_⟩
  · intro email otp he
    cases otp <;> simp [PasswordController.verifyOTP, he]
  · intro email he
    simp [PasswordController.verifyOTP, he]
  · intro email otp he ho
    simp [PasswordController.verifyOTP, he, ho]
  · intro email otp he ho hfmt
    simp [PasswordController.verifyOTP, he, ho, hfmt]
  · intro email otp he ho hfmt hfail
    simp [PasswordController.verifyOTP, he, ho, hfmt, hfail]

/-- Witness for C9: with an empty store (no record), a well-formed request
gets the generic unauthorized signal. -/
theorem verifyOTP_controller_errors_witness :
    (PasswordController.verifyOTP [] 0 (some "a@b.com") (some "A1B2C")).1 =
      .error (.unauthorized "Invalid or expired OTP code") :=
  (verifyOTP_controller_errors [] 0).2.2.2.2.2 "a@b.com" "A1B2C"
    (by decide) (by decide) (by decide) (by decide)

/-- Claim C6: once the identity's record has `verified = true`, the
Consumption Protocol's authorization check succeeds for any submitted code
that passes the format check — the submitted code is never compared against
the stored one — so two reset runs differing only in which format-valid
code is submitted produce identical outcomes (result and store), and the
outcome is never an authorization failure. -/
theorem resetPassword_verified_ignores_code (f : String → Option User)
    (hash : String → String) (store : Store) (now : Nat)
    (email otp1 otp2 : String) (np cp : Option String)
    (he : asciiTrim email ≠ "")
    (h1 : asciiTrim otp1 ≠ "") (h2 : asciiTrim otp2 ≠ "")
    (hf1 : validateOTPFormat (asciiToUpper (asciiTrim otp1)) = true)
    (hf2 : validateOTPFormat (asciiToUpper (asciiTrim otp2)) = true)
    (hv : OTPService.isOTPVerified store (asciiToLower (asciiTrim email)) =
      true) :
    PasswordController.resetPassword f hash store now (some email)
        (some otp1) np cp =
      PasswordController.resetPassword f hash store now (some email)
        (some otp2) np cp ∧
    (∀ m, (PasswordController.resetPassword f hash store now (some email)
        (some otp1) np cp).1 ≠ .error (.unauthorized m)) := by
  constructor
  · simp [PasswordController.resetPassword, he, h1, h2, hf1, hf2, hv]
  · intro m
    cases np with
    | none => simp [PasswordController.resetPassword, he, h1, hf1, hv]
    | some np =>
      cases cp with
      | none =>
        by_cases hnp : np = "" <;>
          simp [PasswordController.resetPassword, he, h1, hf1, hv, hnp]
      | some cp =>
        by_cases hnp : np = "" <;> by_cases hcp : cp = "" <;>
          simp [PasswordController.resetPassword, he, h1, hf1, hv, hnp,
            hcp] <;>
        split_ifs <;>
          cases hf : f (asciiToLower (asciiTrim email)) <;> simp [hf]

/-- Witness for C6: on a verified record, two different format-valid codes
("ZZZZZ" and "11111", neither equal to the stored code) yield the same
successful outcome. -/
theorem resetPassword_verified_ignores_code_witness :
    PasswordController.resetPassword
        (fun e => if e = "a@b.com" then some ⟨7, "a@b.com", "Ann"⟩ else none)
        (fun p => p) [("a@b.com", ⟨"A1B2C", "a@b.com", 10, true⟩)] 3
        (some "a@b.com") (some "ZZZZZ") (some "NewPass1!")
        (some "NewPass1!") =
      PasswordController.resetPassword
        (fun e => if e = "a@b.com" then some ⟨7, "a@b.com", "Ann"⟩ else none)
        (fun p => p) [("a@b.com", ⟨"A1B2C", "a@b.com", 10, true⟩)] 3
        (some "a@b.com") (some "11111") (some "NewPass1!")
        (some "NewPass1!") :=
  (resetPassword_verified_ignores_code
    (fun e => if e = "a@b.com" then some ⟨7, "a@b.com", "Ann"⟩ else none)
    (fun p => p) [("a@b.com", ⟨"A1B2C", "a@b.com", 10, true⟩)] 3
    "a@b.com" "ZZZZZ" "11111" (some "NewPass1!") (some "NewPass1!")
    (by decide) (by decide) (by decide) (by decide) (by decide)
    (by decide)).1

/-- Helper: a joined password-strength message always classifies as the
weak-password failure mode (it never collides with the other fixed
messages). -/
theorem classifyReset_weak (np : String)
    (herr : getPasswordValidationErrors np ≠ []) :
    classifyReset (.error (.validation
      (String.intercalate ", " (getPasswordValidationErrors np)))) =
      .weakPassword := by
  unfold getPasswordValidationErrors at herr ⊢
  split_ifs at herr ⊢ <;> first | decide | simp at herr

/-- Counterexample to claim C8 as frozen: on the submitted code
`" A1B2C "` (otherwise-valid inputs, empty store) the spec's first violated
precondition — following §4.4's upper-casing-only normalization — is the
code-format check, a validation failure, but the program trims the code,
passes the format check, and reports an authorization failure instead: a
different failure mode in the claim's taxonomy. -/
theorem resetPassword_order_spec_cex :
    classifyReset (PasswordController.resetPassword (fun _ => none)
        (fun p => p) [] 0 (some "a@b.com") (some " A1B2C ")
        (some "NewPass1!") (some "NewPass1!")).1 =
      ResetOutcomeClass.unauthorized ∧
    resetPreconditionSpec (fun _ => none) [] 0 (some "a@b.com")
        (some " A1B2C ") (some "NewPass1!") (some "NewPass1!") =
      ResetOutcomeClass.badFormat := by
  decide

/-- Claim C8 (amended): the Consumption Protocol evaluates its
preconditions in exactly the fixed order (1) four fields present and
non-empty, (2) code format, (3) verified or inline fallback verify,
(4) confirmation equality, (5) strength policy, (6) account existence, and
reports the first violated one (validation error for 1, 2, 4, 5;
authorization error for 3; not-found for 6) — except that the submitted
code is normalized by trimming before the format/presence checks (a
whitespace-only code counts as missing, and a code matching the format only
after the trim passes check 2), which the spec's words do not allow (see
the counterexample): `resetPassword`'s outcome always classifies to the
first-violated-precondition function with that normalization. -/
theorem resetPassword_checks_in_order (f : String → Option User)
    (hash : String → String) (store : Store) (now : Nat)
    (email otp np cp : Option String) :
    classifyReset (PasswordController.resetPassword f hash store now
        email otp np cp).1 =
      resetPreconditionOrder f store now email otp np cp := by
  cases email with
  | none => rfl
  | some e =>
  cases otp with
  | none =>
    by_cases he : asciiTrim e = "" <;>
      simp [PasswordController.resetPassword, resetPreconditionOrder,
        classifyReset, he]
  | some o =>
  cases np with
  | none =>
    by_cases he : asciiTrim e = "" <;> by_cases ho : asciiTrim o = "" <;>
      simp [PasswordController.resetPassword, resetPreconditionOrder,
        classifyReset, he, ho]
  | some np =>
  cases cp with
  | none =>
    by_cases he : asciiTrim e = "" <;> by_cases ho : asciiTrim o = "" <;>
      by_cases hnp : np = "" <;>
      simp [PasswordController.resetPassword, resetPreconditionOrder,
        classifyReset, he, ho, hnp]
  | some cp =>
  by_cases he : asciiTrim e = ""
  · simp [PasswordController.resetPassword, resetPreconditionOrder,
      classifyReset, he]
  by_cases ho : asciiTrim o = ""
  · simp [PasswordController.resetPassword, resetPreconditionOrder,
      classifyReset, he, ho]
  by_cases hnp : np = ""
  · simp [PasswordController.resetPassword, resetPreconditionOrder,
      classifyReset, he, ho, hnp]
  by_cases hcp : cp = ""
  · simp [PasswordController.resetPassword, resetPreconditionOrder,
      classifyReset, he, ho, hnp, hcp]
  by_cases hfmt : validateOTPFormat (asciiToUpper (asciiTrim o)) = true
  case neg =>
    have hfmt0 : validateOTPFormat (asciiToUpper (asciiTrim o)) = false := by
      simpa using hfmt
    simp [PasswordController.resetPassword, resetPreconditionOrder,
      classifyReset, he, ho, hnp, hcp, hfmt0]
  case pos =>
  by_cases hver :
      OTPService.isOTPVerified store (asciiToLower (asciiTrim e)) = true
  · by_cases hpw : np = cp
    · subst hpw
      by_cases herr : getPasswordValidationErrors np = []
      · cases hf : f (asciiToLower (asciiTrim e)) with
        | none =>
          simp [PasswordController.resetPassword, resetPreconditionOrder,
            classifyReset, he, ho, hnp, hcp, hfmt, hver, herr, hf]
        | some u =>
          simp [PasswordController.resetPassword, resetPreconditionOrder,
            classifyReset, he, ho, hnp, hcp, hfmt, hver, herr, hf]
      · have hgoal := classifyReset_weak np herr
        simp [PasswordController.resetPassword, resetPreconditionOrder,
          he, ho, hnp, hcp, hfmt, hver, herr, hgoal]
    · simp [PasswordController.resetPassword, resetPreconditionOrder,
        classifyReset, he, ho, hnp, hcp, hfmt, hver, hpw]
  · have hver0 :
        OTPService.isOTPVerified store (asciiToLower (asciiTrim e)) =
          false := by
      simpa using hver
    by_cases hvv :
        (OTPService.verifyOTP store now (asciiToLower (asciiTrim e))
          (asciiToUpper (asciiTrim o))).1 = true
    · by_cases hpw : np = cp
      · subst hpw
        by_cases herr : getPasswordValidationErrors np = []
        · cases hf : f (asciiToLower (asciiTrim e)) with
          | none =>
            simp [PasswordController.resetPassword, resetPreconditionOrder,
              classifyReset, he, ho, hnp, hcp, hfmt, hver0, hvv, herr,
              hf]
          | some u =>
            simp [PasswordController.resetPassword, resetPreconditionOrder,
              classifyReset, he, ho, hnp, hcp, hfmt, hver0, hvv, herr,
              hf]
        · have hgoal := classifyReset_weak np herr
          simp [PasswordController.resetPassword, resetPreconditionOrder,
            he, ho, hnp, hcp, hfmt, hver0, hvv, herr, hgoal]
      · simp [PasswordController.resetPassword, resetPreconditionOrder,
          classifyReset, he, ho, hnp, hcp, hfmt, hver0, hvv, hpw]
    · have hvv0 :
          (OTPService.verifyOTP store now (asciiToLower (asciiTrim e))
            (asciiToUpper (asciiTrim o))).1 = false := by
        simpa using hvv
      simp [PasswordController.resetPassword, resetPreconditionOrder,
        classifyReset, he, ho, hnp, hcp, hfmt, hver0, hvv0]

/-- Helper for single-use: once the store holds no record under the
normalized identity key (as after `removeOTP`), both a repeat verify and a
repeat reset with the same inputs fail with the generic unauthorized
error, leaving the store unchanged. -/
theorem reset_single_use_aux (f : String → Option User)
    (hash : String → String) (σ : Store) (now2 : Nat)
    (email otp np cp : String)
    (he : ¬ asciiTrim email = "") (ho : ¬ asciiTrim otp = "")
    (hnp : ¬ np = "") (hcp : ¬ cp = "")
    (hfmt : validateOTPFormat (asciiToUpper (asciiTrim otp)) = true)
    (store2 : Store)
    (h2 : store2 = OTPService.removeOTP σ (asciiToLower (asciiTrim email))) :
    mapGet store2 (asciiToLower (asciiTrim email)) = none ∧
    PasswordController.verifyOTP store2 now2 (some email) (some otp) =
      (.error (.unauthorized "Invalid or expired OTP code"), store2) ∧
    PasswordController.resetPassword f hash store2 now2 (some email)
        (some otp) (some np) (some cp) =
      (.error (.unauthorized
        "Invalid or expired OTP code. Please request a new OTP."),
       store2) := by
  have hnone : mapGet store2 (asciiToLower (asciiTrim email)) = none := by
    subst h2
    rw [OTPService.removeOTP, asciiToLower_idem]
    exact mapGet_mapDelete_self σ _
  have hv : OTPService.verifyOTP store2 now2
      (asciiToLower (asciiTrim email)) (asciiToUpper (asciiTrim otp)) =
      (false, store2) := by
    simp [OTPService.verifyOTP, asciiToLower_idem, hnone]
  have hiv : OTPService.isOTPVerified store2
      (asciiToLower (asciiTrim email)) = false := by
    simp [OTPService.isOTPVerified, asciiToLower_idem, hnone]
  refine ⟨hnone, ?_, ?_⟩
  · simp [PasswordController.verifyOTP, he, ho, hfmt, hv]
  · simp [PasswordController.resetPassword, he, ho, hnp, hcp, hfmt, hiv, hv]

/-- Claim C3: after any successful Consumption Protocol run, the store holds
no record for the identity, and both a repeat verify and a repeat reset with
the same code fail with the generic unauthorized error — a successfully
consumed code can never be used again. -/
theorem resetPassword_single_use (f : String → Option User)
    (hash : String → String) (store : Store) (now now2 : Nat)
    (email otp np cp : String) (out : ResetSuccess) (store2 : Store)
    (h : PasswordController.resetPassword f hash store now (some email)
        (some otp) (some np) (some cp) = (.ok out, store2)) :
    mapGet store2 (asciiToLower (asciiTrim email)) = none ∧
    PasswordController.verifyOTP store2 now2 (some email) (some otp) =
      (.error (.unauthorized "Invalid or expired OTP code"), store2) ∧
    PasswordController.resetPassword f hash store2 now2 (some email)
        (some otp) (some np) (some cp) =
      (.error (.unauthorized
        "Invalid or expired OTP code. Please request a new OTP."),
       store2) := by
  by_cases he : asciiTrim email = ""
  · simp [PasswordController.resetPassword, he] at h
  by_cases ho : asciiTrim otp = ""
  · simp [PasswordController.resetPassword, he, ho] at h
  by_cases hnp : np = ""
  · simp [PasswordController.resetPassword, he, ho, hnp] at h
  by_cases hcp : cp = ""
  · simp [PasswordController.resetPassword, he, ho, hnp, hcp] at h
  by_cases hfmt : validateOTPFormat (asciiToUpper (asciiTrim otp)) = true
  case neg =>
    have hfmt0 : validateOTPFormat (asciiToUpper (asciiTrim otp)) = false :=
      by simpa using hfmt
    simp [PasswordController.resetPassword, he, ho, hnp, hcp, hfmt0] at h
  case pos =>
  by_cases hver :
      OTPService.isOTPVerified store (asciiToLower (asciiTrim email)) = true
  · by_cases hpw : np = cp
    · subst hpw
      by_cases herr : getPasswordValidationErrors np = []
      · cases hf : f (asciiToLower (asciiTrim email)) with
        | none =>
          simp [PasswordController.resetPassword, he, ho, hnp, hfmt, hver,
            herr, hf] at h
        | some u =>
          have h2 : store2 = OTPService.removeOTP store
              (asciiToLower (asciiTrim email)) := by
            have hsnd : (PasswordController.resetPassword f hash store now
                (some email) (some otp) (some np) (some np)).2 = store2 :=
              congrArg Prod.snd h
            rw [← hsnd]
            simp [PasswordController.resetPassword, he, ho, hnp, hfmt,
              hver, herr, hf]
          exact reset_single_use_aux f hash store now2 email otp np np
            he ho hnp hnp hfmt store2 h2
      · simp [PasswordController.resetPassword, he, ho, hnp, hfmt, hver,
          herr] at h
    · simp [PasswordController.resetPassword, he, ho, hnp, hcp, hfmt, hver,
        hpw] at h
  · have hver0 : OTPService.isOTPVerified store
        (asciiToLower (asciiTrim email)) = false := by simpa using hver
    by_cases hvv : (OTPService.verifyOTP store now
        (asciiToLower (asciiTrim email))
        (asciiToUpper (asciiTrim otp))).1 = true
    · by_cases hpw : np = cp
      · subst hpw
        by_cases herr : getPasswordValidationErrors np = []
        · cases hf : f (asciiToLower (asciiTrim email)) with
          | none =>
            simp [PasswordController.resetPassword, he, ho, hnp, hfmt,
              hver0, hvv, herr, hf] at h
          | some u =>
            have h2 : store2 = OTPService.removeOTP
                (OTPService.verifyOTP store now
                  (asciiToLower (asciiTrim email))
                  (asciiToUpper (asciiTrim otp))).2
                (asciiToLower (asciiTrim email)) := by
              have hsnd : (PasswordController.resetPassword f hash store now
                  (some email) (some otp) (some np) (some np)).2 = store2 :=
                congrArg Prod.snd h
              rw [← hsnd]
              simp [PasswordController.resetPassword, he, ho, hnp, hfmt,
                hver0, hvv, herr, hf]
            exact reset_single_use_aux f hash _ now2 email otp np np
              he ho hnp hnp hfmt store2 h2
        · simp [PasswordController.resetPassword, he, ho, hnp, hfmt, hver0,
            hvv, herr] at h
      · simp [PasswordController.resetPassword, he, ho, hnp, hcp, hfmt,
          hver0, hvv, hpw] at h
    · have hvv0 : (OTPService.verifyOTP store now
          (asciiToLower (asciiTrim email))
          (asciiToUpper (asciiTrim otp))).1 = false := by simpa using hvv
      simp [PasswordController.resetPassword, he, ho, hnp, hcp, hfmt,
        hver0, hvv0] at h

/-- Witness for C3: after a concrete successful reset (verified record,
store emptied), the repeat reset with the same code is rejected. -/
theorem resetPassword_single_use_witness :
    PasswordController.resetPassword
        (fun e => if e = "a@b.com" then some ⟨7, "a@b.com", "Ann"⟩ else none)
        (fun p => p) [] 4 (some "a@b.com") (some "A1B2C") (some "NewPass1!")
        (some "NewPass1!") =
      (.error (.unauthorized
        "Invalid or expired OTP code. Please request a new OTP."), []) :=
  (resetPassword_single_use
    (fun e => if e = "a@b.com" then some ⟨7, "a@b.com", "Ann"⟩ else none)
    (fun p => p) [("a@b.com", ⟨"A1B2C", "a@b.com", 10, true⟩)] 3 4
    "a@b.com" "A1B2C" "NewPass1!" "NewPass1!"
    ⟨"Password reset successfully. You can now login with your new password.",
      7, "NewPass1!"⟩
    [] (by rfl)).2.2

end Taskmart
